import Mathlib

/-!
Verification development for the PAKE task-management system's cache-aside
data-access layer: a shallow embedding of `CacheService`
(src/apps/api/src/services/CacheService.ts), `DataAccessLayer`
(src/apps/api/src/data/DataAccessLayer.ts) and `TaskRepository`
(src/unnamed/part_011), together with theorems about cache key
construction, pattern invalidation, graceful degradation, transaction
scoping and the repository read/write paths.

Modelling conventions:
- Machine integers are `Nat`/`Int`; timestamps are abstract `Nat` ticks.
- The key-value backend (Redis) is an association list of string keys to
  string payloads; TTLs do not expire inside a single modelled run
  ("TTL has not elapsed"), so the ttl argument is carried but does not
  alter the stored entry.
- Backend faults are injected through an explicit `Option String` error
  code argument (`none` = the backend call succeeds).
- JavaScript objects used as filter maps are association lists in
  insertion order; `JSON.stringify` on them is modelled literally
  (insertion order preserved), `Object.keys(...).sort()` sorts keys.
- `JSON.parse`/`JSON.stringify` of cached values are modelled on the
  scalar fragment null / boolean / string (`JsVal`), which is enough to
  express the write/read round-trip and its failure on raw strings.
-/

/-- Association-list lookup modelling JavaScript object property access
(first binding wins; JS objects cannot hold duplicate keys). -/
def alookup {β : Type} : List (String × β) → String → Option β
  | [], _ => none
  | (k2, v) :: rest, k => if k2 = k then some v else alookup rest k

/-- Characters kept by `generateCacheKey`'s sanitizer: the regular
expression class A-Za-z0-9_- of DataAccessLayer.generateCacheKey. -/
def isAllowedKeyChar (c : Char) : Bool := c.isAlphanum || c == '_' || c == '-'

/-- String(part).replace of every character outside A-Za-z0-9_- with an
underscore, as DataAccessLayer.generateCacheKey does per part. -/
def sanitizePart (s : String) : String :=
  String.mk (s.data.map (fun c => if isAllowedKeyChar c then c else '_'))

/-- DataAccessLayer.generateCacheKey: namespace, then ':'-joined sanitized
parts (null/undefined parts are filtered by the source; callers in this
development always pass present parts). -/
def generateCacheKey (ns : String) (parts : List String) : String :=
  ns ++ ":" ++ String.intercalate ":" (parts.map sanitizePart)

/-- A JavaScript value appearing in a filter object: string, boolean or
number (numbers restricted to naturals as used by ids and paging). -/
inductive FVal where
  | fstr : String → FVal
  | fbool : Bool → FVal
  | fnat : Nat → FVal
deriving DecidableEq

/-- String(value) coercion of a filter value, as template literals do. -/
def FVal.asString : FVal → String
  | .fstr s => s
  | .fbool true => "true"
  | .fbool false => "false"
  | .fnat n => toString n

/-- JavaScript truthiness of a filter value. -/
def FVal.truthy : FVal → Bool
  | .fstr s => !(s == "")
  | .fbool b => b
  | .fnat n => !(n == 0)

/-- parseInt-style reading of a filter value as a natural number. -/
def FVal.asNat? : FVal → Option Nat
  | .fstr s => s.toNat?
  | .fbool _ => none
  | .fnat n => some n

/-- A filter object: key/value pairs in insertion order. -/
abbrev Filters := List (String × FVal)

/-- JSON encoding of one filter value (strings in this development contain
no characters needing escapes; the repository sanitizes the result into a
cache key anyway). -/
def FVal.jsonEnc : FVal → String
  | .fstr s => "\"" ++ s ++ "\""
  | .fbool true => "true"
  | .fbool false => "false"
  | .fnat n => toString n

/-- JSON.stringify of a filter object: insertion order preserved, exactly
as the JavaScript runtime serializes plain objects. -/
def jsonStringifyFilters (fs : Filters) : String :=
  "\x7b" ++ String.intercalate "," (fs.map (fun kv => "\"" ++ kv.1 ++ "\":" ++ kv.2.jsonEnc)) ++ "\x7d"

/-- The key-value backend's contents: association list from keys to the
stored string payloads. -/
abbrev Store := List (String × String)

/-- Backend GET of a key. -/
def storeGet : Store → String → Option String
  | [], _ => none
  | (k2, v) :: rest, k => if k2 = k then some v else storeGet rest k

/-- Backend SETEX of a key (replaces any previous binding). -/
def storeSet (st : Store) (k v : String) : Store :=
  (k, v) :: st.filter (fun p => p.1 != k)

/-- Whether the backend currently holds a key. -/
def storeHas (st : Store) (k : String) : Bool := st.any (fun p => p.1 == k)

/-- Backend DEL of a batch of keys: the surviving store and the number of
keys that existed (Redis DEL's return value). -/
def delKeysCount (st : Store) (ks : List String) : Store × Nat :=
  (st.filter (fun p => !(ks.contains p.1)), (ks.filter (fun k => storeHas st k)).length)

/-- Redis glob matching restricted to literal characters and the '*'
wildcard, the only constructs the service's patterns use. -/
def globMatchAux : List Char → List Char → Bool
  | [], [] => true
  | [], _ :: _ => false
  | '*' :: ps, [] => globMatchAux ps []
  | '*' :: ps, c :: ks => globMatchAux ps (c :: ks) || globMatchAux ('*' :: ps) ks
  | _ :: _, [] => false
  | p :: ps, c :: ks => p == c && globMatchAux ps ks
termination_by p k => (p.length, k.length)

/-- Whether a key matches a glob pattern. -/
def globMatch (pattern key : String) : Bool := globMatchAux pattern.data key.data

/-- CacheService availability state: `isAvailable` is flipped to false by
`_handleError` on a connection error; `redisPresent` records whether a
Redis client was provided at construction (`this.redis`). -/
structure CSState where
  isAvailable : Bool
  redisPresent : Bool
deriving DecidableEq

/-- CacheService.isHealthy: `this.isAvailable && this.redis`. -/
def CSState.isHealthy (st : CSState) : Bool := st.isAvailable && st.redisPresent

/-- The two error codes `_handleError` treats as connection failures. -/
def isConnErrCode (c : String) : Bool := c == "ECONNREFUSED" || c == "ENOTFOUND"

/-- The CacheUnavailableError thrown by `_handleError` for connection
failures (name CACHE_UNAVAILABLE, status 503 in the source). -/
inductive CSErr where
  | unavailable : CSErr
deriving DecidableEq

deriving instance DecidableEq for Except

/-- Outcome of one CacheService operation: result or thrown error, the
availability state afterwards, the backend contents afterwards, and
whether the backend was contacted at all. -/
structure CSOut (α : Type) where
  res : Except CSErr α
  state : CSState
  store : Store
  contacted : Bool
deriving DecidableEq

/-- CacheService._handleError: a connection error marks the service
unavailable and throws CacheUnavailableError; every other error returns
null (graceful degradation). -/
def handleErrorModel (st : CSState) (code : String) : Except CSErr Unit × CSState :=
  if isConnErrCode code then (Except.error CSErr.unavailable, { st with isAvailable := false })
  else (Except.ok (), st)

/-- A cached JSON value, restricted to the scalar fragment used by the
round-trip theorems: null, booleans and strings. -/
inductive JsVal where
  | jnull : JsVal
  | jbool : Bool → JsVal
  | jstr : String → JsVal
deriving DecidableEq

/-- Whether a value is a JavaScript string (typeof value === 'string'). -/
def JsVal.isStr : JsVal → Bool
  | .jstr _ => true
  | _ => false

/-- JSON.stringify on the scalar fragment (strings in this development
contain no characters needing escapes). -/
def jsonStringify : JsVal → String
  | .jnull => "null"
  | .jbool true => "true"
  | .jbool false => "false"
  | .jstr s => "\"" ++ s ++ "\""

/-- Text between an opening and a closing quote, when the characters form
a JSON string literal. -/
def stripQuotes? (cs : List Char) : Option (List Char) :=
  match cs with
  | '"' :: rest =>
    match rest.reverse with
    | '"' :: mid => some mid.reverse
    | _ => none
  | _ => none

/-- JSON.parse on the scalar fragment: recognizes the null/true/false
literals and quoted strings; anything else is a parse failure (the model
leaves out numeric literals, which no theorem here exercises). -/
def jsonParse (s : String) : Option JsVal :=
  if s = "null" then some JsVal.jnull
  else if s = "true" then some (JsVal.jbool true)
  else if s = "false" then some (JsVal.jbool false)
  else
    match stripQuotes? s.data with
    | some mid => some (JsVal.jstr (String.mk mid))
    | none => none

/-- CacheService.set's payload: a string value is stored raw, anything
else is JSON.stringify'd (`typeof value === 'string' ? value :
JSON.stringify(value)`). -/
def cacheValueOf : JsVal → String
  | .jstr s => s
  | v => jsonStringify v

namespace CacheService

/-- CacheService.get: unhealthy short-circuits to null without contacting
the backend; a backend fault goes through `_handleError` (throwing on
connection errors); otherwise the payload is fetched and JSON.parse'd,
with a falsy (empty or absent) payload and a parse failure both read as
null. -/
def get (st : CSState) (store : Store) (key : String) (fault : Option String) :
    CSOut (Option JsVal) :=
  if st.isHealthy = true then
    match fault with
    | some code =>
      match handleErrorModel st code with
      | (Except.error e, st2) => ⟨Except.error e, st2, store, true⟩
      | (Except.ok _, st2) => ⟨Except.ok none, st2, store, true⟩
    | none =>
      match storeGet store key with
      | none => ⟨Except.ok none, st, store, true⟩
      | some s =>
        if s = "" then ⟨Except.ok none, st, store, true⟩
        else
          match jsonParse s with
          | some v => ⟨Except.ok (some v), st, store, true⟩
          | none => ⟨Except.ok none, st, store, true⟩
  else ⟨Except.ok none, st, store, false⟩

/-- CacheService.set: unhealthy short-circuits to false without contacting
the backend; a backend fault is handled by `_handleError` (throwing on
connection errors, otherwise converted to false); on success the payload
is stored under the key (the ttl argument selects expiry only, which the
un-timed store model carries but never triggers). -/
def set (st : CSState) (store : Store) (key : String) (value : JsVal)
    (_ttl : Option Nat) (fault : Option String) : CSOut Bool :=
  if st.isHealthy = true then
    match fault with
    | some code =>
      match handleErrorModel st code with
      | (Except.error e, st2) => ⟨Except.error e, st2, store, true⟩
      | (Except.ok _, st2) => ⟨Except.ok false, st2, store, true⟩
    | none => ⟨Except.ok true, st, storeSet store key (cacheValueOf value), true⟩
  else ⟨Except.ok false, st, store, false⟩

/-- CacheService.del: unhealthy short-circuits to false; otherwise the key
is removed and the result says whether a key was deleted. -/
def del (st : CSState) (store : Store) (key : String) (fault : Option String) :
    CSOut Bool :=
  if st.isHealthy = true then
    match fault with
    | some code =>
      match handleErrorModel st code with
      | (Except.error e, st2) => ⟨Except.error e, st2, store, true⟩
      | (Except.ok _, st2) => ⟨Except.ok false, st2, store, true⟩
    | none => ⟨Except.ok (storeHas store key), st, store.filter (fun p => p.1 != key), true⟩
  else ⟨Except.ok false, st, store, false⟩

/-- CacheService.exists: unhealthy short-circuits to false; otherwise
reports whether the backend holds the key. -/
def existsKey (st : CSState) (store : Store) (key : String) (fault : Option String) :
    CSOut Bool :=
  if st.isHealthy = true then
    match fault with
    | some code =>
      match handleErrorModel st code with
      | (Except.error e, st2) => ⟨Except.error e, st2, store, true⟩
      | (Except.ok _, st2) => ⟨Except.ok false, st2, store, true⟩
    | none => ⟨Except.ok (storeHas store key), st, store, true⟩
  else ⟨Except.ok false, st, store, false⟩

/-- Summary returned by invalidateCachePattern: `deleted` count and the
`success` flag (false covers both the explicit success:false result and
the unhealthy result, whose success field is absent hence falsy). -/
structure InvSummary where
  deleted : Nat
  success : Bool
deriving DecidableEq

/-- The SCAN-and-DEL loop of invalidateCachePattern: the backend serves
the keyspace snapshot in cursor pages of at most 100 keys (the COUNT
batch size), each page is MATCH-filtered against the pattern and deleted
in one batched DEL whose return value is accumulated; the loop ends when
the cursor returns to the sentinel, i.e. when the snapshot is
exhausted. -/
def scanLoopGo (pattern : String) : List String → Store → Nat → Store × Nat
  | [], st, acc => (st, acc)
  | x :: pending2, st, acc =>
    let page := (x :: pending2).take 100
    let rest := (x :: pending2).drop 100
    let matched := page.filter (fun k => globMatch pattern k)
    let step := delKeysCount st matched
    scanLoopGo pattern rest step.1 (acc + step.2)
termination_by pending => pending.length
decreasing_by
  simp [List.length_drop, List.length_cons]
  omega

/-- CacheService.invalidateCachePattern: unhealthy returns a zero summary
without contacting the backend; a fault during the scan is routed through
`_handleError` (throwing on connection errors, otherwise a success:false
summary); otherwise the cursor loop deletes every matching key page by
page and reports the accumulated DEL count with success:true. -/
def invalidateCachePattern (st : CSState) (store : Store) (pattern : String)
    (fault : Option String) : CSOut InvSummary :=
  if st.isHealthy = true then
    match fault with
    | some code =>
      match handleErrorModel st code with
      | (Except.error e, st2) => ⟨Except.error e, st2, store, true⟩
      | (Except.ok _, st2) => ⟨Except.ok ⟨0, false⟩, st2, store, true⟩
    | none =>
      let swept := scanLoopGo pattern (store.map Prod.fst) store 0
      ⟨Except.ok ⟨swept.2, true⟩, st, swept.1, true⟩
  else ⟨Except.ok ⟨0, false⟩, st, store, false⟩

/-- CacheService._hashFilters: keys sorted lexicographically, each
rendered as key:value, joined with '|', with 'default' for the empty
join. -/
def hashFilters (fs : Filters) : String :=
  let sortedKeys := List.insertionSort (fun a b : String => a ≤ b) (fs.map Prod.fst)
  let hashParts := sortedKeys.map (fun k =>
    k ++ ":" ++ (match alookup fs k with
                 | some v => v.asString
                 | none => "undefined"))
  let joined := String.intercalate "|" hashParts
  if joined = "" then "default" else joined

/-- CacheService.keyPatterns.userTasks: user:{userId}:tasks:{hash}. -/
def userTasksKey (userId : Nat) (fs : Filters) : String :=
  "user:" ++ toString userId ++ ":tasks:" ++ hashFilters fs

end CacheService

/-- One primitive step of DataAccessLayer.executeTransaction, in the order
the control flow performs them on the acquired pool client. -/
inductive TxEv where
  | beginTx : TxEv
  | bodyRun : TxEv
  | commitTx : TxEv
  | rollbackTx : TxEv
  | releaseConn : TxEv
deriving DecidableEq

/-- Environment of one executeTransaction run: whether BEGIN fails, the
callback's outcome on the transaction-scoped client, and whether COMMIT
or ROLLBACK fail when reached (`none` = the statement succeeds). -/
structure TxEnv (ε α : Type) where
  beginErr : Option ε
  body : Except ε α
  commitErr : Option ε
  rollbackErr : Option ε

/-- Result of executeTransaction: what the caller gets (returned value or
propagated exception) and the trace of steps run on the connection. -/
structure TxResult (ε α : Type) where
  result : Except ε α
  events : List TxEv

/-- DataAccessLayer.executeTransaction: `try { BEGIN; r := body(client);
COMMIT; return r } catch (e) { ROLLBACK; throw e } finally {
client.release() }`. A failing ROLLBACK makes its own error propagate
(the `throw error` statement after the awaited rollback is never
reached), and the finally clause releases the client on every path. -/
def executeTransaction {ε α : Type} (env : TxEnv ε α) : TxResult ε α :=
  let tryRun : Except ε α × List TxEv :=
    match env.beginErr with
    | some e => (Except.error e, [TxEv.beginTx])
    | none =>
      match env.body with
      | Except.error e => (Except.error e, [TxEv.beginTx, TxEv.bodyRun])
      | Except.ok a =>
        match env.commitErr with
        | some e => (Except.error e, [TxEv.beginTx, TxEv.bodyRun, TxEv.commitTx])
        | none => (Except.ok a, [TxEv.beginTx, TxEv.bodyRun, TxEv.commitTx])
  match tryRun with
  | (Except.ok a, evs) => ⟨Except.ok a, evs ++ [TxEv.releaseConn]⟩
  | (Except.error e, evs) =>
    match env.rollbackErr with
    | none => ⟨Except.error e, evs ++ [TxEv.rollbackTx, TxEv.releaseConn]⟩
    | some re => ⟨Except.error re, evs ++ [TxEv.rollbackTx, TxEv.releaseConn]⟩

/-- A row of the tasks table (named DbTask because core Lean already
declares `Task`). -/
structure DbTask where
  id : Nat
  title : String
  description : Option String
  completed : Bool
  priority : String
  due_date : Option Int
  created_at : Nat
  updated_at : Nat
  user_id : Nat
  category_id : Option Nat
deriving DecidableEq

/-- A row of the categories table. -/
structure Category where
  id : Nat
  user_id : Nat
  name : String
  color : String
deriving DecidableEq

/-- A row of getUserTasks' SELECT list: task columns plus the LEFT JOINed
category columns (c.name, c.color, c.id as category_id), null when the
task has no matching category. -/
structure TaskRow where
  id : Nat
  title : String
  description : Option String
  completed : Bool
  priority : String
  due_date : Option Int
  created_at : Nat
  updated_at : Nat
  category_name : Option String
  category_color : Option String
  category_id : Option Nat
deriving DecidableEq

/-- The pagination block of a list response. -/
structure Pagination where
  total : Nat
  limit : Nat
  offset : Nat
  hasMore : Bool
deriving DecidableEq

/-- A getUserTasks response body (before the fromCache flag is added). -/
structure ListResp where
  tasks : List TaskRow
  pagination : Pagination
deriving DecidableEq

/-- The stats row cached by getTaskStats (kept for key accounting; the
stats query itself is outside every claim). -/
structure StatsRow where
  total : Nat
  completed : Nat
  pending : Nat
  urgent : Nat
  high_priority : Nat
  overdue : Nat
deriving DecidableEq

/-- The relational store. -/
structure DB where
  tasks : List DbTask
  categories : List Category
deriving DecidableEq

/-- The DAL-level cache, split by the three disjoint key families the
TaskRepository uses (user_tasks:* list responses, task:* single rows,
user_task_stats:* stats rows); every stored payload is a complete
JSON round-trip of the cached object. -/
structure RepoCache where
  lists : List (String × ListResp)
  items : List (String × TaskRow)
  stats : List (String × StatsRow)
deriving DecidableEq

/-- Store a list response under a key (replacing any previous entry). -/
def setCachedList (c : RepoCache) (k : String) (r : ListResp) : RepoCache :=
  { c with lists := (k, r) :: c.lists.filter (fun p => p.1 != k) }

/-- Store a single task row under a key. -/
def setCachedItem (c : RepoCache) (k : String) (r : TaskRow) : RepoCache :=
  { c with items := (k, r) :: c.items.filter (fun p => p.1 != k) }

/-- DataAccessLayer.deleteCached of one key (a key lives in at most one
family; deletion filters all three). -/
def deleteCachedKey (c : RepoCache) (k : String) : RepoCache :=
  ⟨c.lists.filter (fun p => p.1 != k),
   c.items.filter (fun p => p.1 != k),
   c.stats.filter (fun p => p.1 != k)⟩

/-- DataAccessLayer.invalidateCache over a list of keys: deleteCached on
each in order. -/
def deleteCachedKeys (c : RepoCache) (ks : List String) : RepoCache :=
  ks.foldl deleteCachedKey c

/-- World state a repository call runs in: the relational store, the
cache, the clock backing CURRENT_TIMESTAMP and the next serial id. -/
structure Env where
  db : DB
  cache : RepoCache
  now : Nat
  nextId : Nat
deriving DecidableEq

/-- Externally observable accesses of one repository call. -/
inductive Ev where
  | cacheGet : String → Ev
  | cacheSet : String → Ev
  | cacheDel : String → Ev
  | dbRead : Ev
  | dbWrite : Ev
deriving DecidableEq

/-- Errors a repository call can surface: the enumerated business errors
thrown by TaskRepository (each a distinct `new Error(message)` the routes
discriminate on) and relational-store failures. -/
inductive RepoErr where
  | invalidSort : String → RepoErr
  | invalidOrder : String → RepoErr
  | categoryNotOwned : RepoErr
  | noFieldsToUpdate : RepoErr
  | dbFailure : String → RepoErr
deriving DecidableEq

/-- Outcome of one repository call: result or thrown error, the world
afterwards, and the trace of store accesses in order. -/
structure ROut (α : Type) where
  res : Except RepoErr α
  env : Env
  events : List Ev
deriving DecidableEq

/-- The LEFT JOIN of one task against the categories table on
t.category_id = c.id, producing getUserTasks' SELECT row. -/
def joinRow (cats : List Category) (t : DbTask) : TaskRow :=
  match t.category_id with
  | some cid =>
    match cats.find? (fun c => c.id == cid) with
    | some c => ⟨t.id, t.title, t.description, t.completed, t.priority, t.due_date,
                 t.created_at, t.updated_at, some c.name, some c.color, some c.id⟩
    | none => ⟨t.id, t.title, t.description, t.completed, t.priority, t.due_date,
               t.created_at, t.updated_at, none, none, none⟩
  | none => ⟨t.id, t.title, t.description, t.completed, t.priority, t.due_date,
             t.created_at, t.updated_at, none, none, none⟩

/-- The boolean getUserTasks binds for the completed condition:
`completed === 'true' || completed === true`. -/
def asBoolParam (v : FVal) : Bool := v == FVal.fstr "true" || v == FVal.fbool true

/-- The WHERE clause of getUserTasks applied to one task: user ownership
plus the optional completed / priority / category_id conditions, each
added exactly when the source adds it (completed when the property is
present, priority and category_id when the value is truthy). -/
def taskMatches (uid : Nat) (filters : Filters) (t : DbTask) : Bool :=
  t.user_id == uid
  && (match alookup filters "completed" with
      | none => true
      | some v => t.completed == asBoolParam v)
  && (match alookup filters "priority" with
      | none => true
      | some v => if v.truthy then t.priority == v.asString else true)
  && (match alookup filters "category_id" with
      | none => true
      | some v =>
        if v.truthy then
          match v.asNat? with
          | some n => t.category_id == some n
          | none => false
        else true)

/-- The fixed sort-field allow-list of getUserTasks. -/
def allowedSortFields : List String := ["created_at", "due_date", "priority", "title"]

/-- ORDER BY comparison for one allowed sort field, ascending; SQL nulls
order last under ASC for the nullable due_date column. -/
def rowLe (field : String) (a b : TaskRow) : Bool :=
  if field == "created_at" then decide (a.created_at ≤ b.created_at)
  else if field == "due_date" then
    match a.due_date, b.due_date with
    | none, none => true
    | some _, none => true
    | none, some _ => false
    | some x, some y => decide (x ≤ y)
  else if field == "priority" then decide (a.priority ≤ b.priority)
  else decide (a.title ≤ b.title)

/-- Insertion step of the deterministic comparison sort standing in for
the store's ORDER BY. -/
def insertRowLe (le : TaskRow → TaskRow → Bool) (a : TaskRow) : List TaskRow → List TaskRow
  | [] => [a]
  | b :: rest => if le a b then a :: b :: rest else b :: insertRowLe le a rest

/-- Deterministic comparison sort (insertion sort) for ORDER BY. -/
def sortRowsBy (le : TaskRow → TaskRow → Bool) : List TaskRow → List TaskRow
  | [] => []
  | a :: rest => insertRowLe le a (sortRowsBy le rest)

/-- ORDER BY t.{field} {ASC|DESC}: a deterministic comparison sort under
the field's comparison, reversed comparison for DESC (postgres defaults
NULLS FIRST under DESC, the reversal of ASC NULLS LAST). -/
def sortRows (field dir : String) (rows : List TaskRow) : List TaskRow :=
  if dir == "desc" then sortRowsBy (fun a b => rowLe field b a) rows
  else sortRowsBy (fun a b => rowLe field a b) rows

/-- Reading of the limit/offset filter values: absent uses the
destructuring default, numbers pass through, numeric strings are
parseInt'd (non-numeric paging tokens are outside every theorem's
scope and fall to the default here). -/
def natOfFVal (v : Option FVal) (dflt : Nat) : Nat :=
  match v with
  | none => dflt
  | some (FVal.fnat n) => n
  | some (FVal.fstr s) => s.toNat?.getD dflt
  | some (FVal.fbool _) => dflt

/-- Validation of the sort token against the allow-list; the thrown
`Invalid sort field` error carries String(sort) (a non-string token never
passes the strict-equality includes check). -/
def validateSort (v : FVal) : Except RepoErr String :=
  match v with
  | FVal.fstr s =>
    if allowedSortFields.contains s then Except.ok s
    else Except.error (RepoErr.invalidSort s)
  | v => Except.error (RepoErr.invalidSort v.asString)

/-- toLowerCase of an order token (character-wise Char.toLower). -/
def strToLower (s : String) : String := String.mk (s.data.map Char.toLower)

/-- Validation of the order token: order.toLowerCase() must be asc or
desc. -/
def validateOrder (v : FVal) : Except RepoErr String :=
  match v with
  | FVal.fstr s =>
    if strToLower s == "asc" || strToLower s == "desc" then Except.ok (strToLower s)
    else Except.error (RepoErr.invalidOrder s)
  | v => Except.error (RepoErr.invalidOrder v.asString)

/-- The two validations of getUserTasks in source order (sort first, then
order), with the destructuring defaults created_at and desc. -/
def validateSortOrder (filters : Filters) : Except RepoErr (String × String) :=
  match validateSort ((alookup filters "sort").getD (FVal.fstr "created_at")) with
  | Except.error e => Except.error e
  | Except.ok sortField =>
    match validateOrder ((alookup filters "order").getD (FVal.fstr "desc")) with
    | Except.error e => Except.error e
    | Except.ok orderDir => Except.ok (sortField, orderDir)

namespace TaskRepository

/-- The list-path cache key of TaskRepository.getUserTasks:
`this.dal.generateCacheKey('user_tasks', userId, JSON.stringify(filters))`. -/
def userTasksCacheKey (uid : Nat) (filters : Filters) : String :=
  generateCacheKey "user_tasks" [toString uid, jsonStringifyFilters filters]

/-- The single-task cache key of TaskRepository.getTaskById:
`this.dal.generateCacheKey('task', taskId, userId)`. -/
def taskCacheKey (tid uid : Nat) : String :=
  generateCacheKey "task" [toString tid, toString uid]

/-- The two literal keys TaskRepository.invalidateUserTasksCache deletes
(`generateCacheKey('user_tasks', userId)` and
`generateCacheKey('user_task_stats', userId)`; the source's comment defers
pattern deletion to production and deletes only these). -/
def invalidationKeys (uid : Nat) : List String :=
  [generateCacheKey "user_tasks" [toString uid],
   generateCacheKey "user_task_stats" [toString uid]]

/-- TaskRepository.getUserTasks: build the filter-hashed cache key, try
the cache (returning the hit with fromCache true), otherwise validate
sort/order, run the filtered/sorted/paginated query and the count query,
populate the cache with the short TTL and return with fromCache false. -/
def getUserTasks (env : Env) (uid : Nat) (filters : Filters) : ROut (ListResp × Bool) :=
  let cacheKey := userTasksCacheKey uid filters
  match alookup env.cache.lists cacheKey with
  | some r => ⟨Except.ok (r, true), env, [Ev.cacheGet cacheKey]⟩
  | none =>
    match validateSortOrder filters with
    | Except.error e => ⟨Except.error e, env, [Ev.cacheGet cacheKey]⟩
    | Except.ok sd =>
      let matched := env.db.tasks.filter (taskMatches uid filters)
      let rows := sortRows sd.1 sd.2 (matched.map (joinRow env.db.categories))
      let limitN := natOfFVal (alookup filters "limit") 50
      let offsetN := natOfFVal (alookup filters "offset") 0
      let total := matched.length
      let resp : ListResp :=
        ⟨(rows.drop offsetN).take limitN,
         ⟨total, limitN, offsetN, decide (offsetN + limitN < total)⟩⟩
      ⟨Except.ok (resp, false),
       { env with cache := setCachedList env.cache cacheKey resp },
       [Ev.cacheGet cacheKey, Ev.dbRead, Ev.dbRead, Ev.cacheSet cacheKey]⟩

/-- TaskRepository.getTaskById: try the task:{id}:{userId} cache key, on a
miss run the joined SELECT; null when no row matches, otherwise cache the
row with the medium TTL and return it with fromCache false. -/
def getTaskById (env : Env) (tid uid : Nat) : ROut (Option (TaskRow × Bool)) :=
  let cacheKey := taskCacheKey tid uid
  match alookup env.cache.items cacheKey with
  | some row => ⟨Except.ok (some (row, true)), env, [Ev.cacheGet cacheKey]⟩
  | none =>
    match env.db.tasks.find? (fun t => t.id == tid && t.user_id == uid) with
    | none => ⟨Except.ok none, env, [Ev.cacheGet cacheKey, Ev.dbRead]⟩
    | some t =>
      let row := joinRow env.db.categories t
      ⟨Except.ok (some (row, false)),
       { env with cache := setCachedItem env.cache cacheKey row },
       [Ev.cacheGet cacheKey, Ev.dbRead, Ev.cacheSet cacheKey]⟩

/-- TaskRepository.validateCategoryOwnership: SELECT id FROM categories
WHERE id = $1 AND user_id = $2. A category value the store cannot read as
an integer fails the parameterized query itself (a thrown relational
error, which the method rethrows). -/
def validateCategoryOwnershipE (db : DB) (catv : FVal) (uid : Nat) : Except RepoErr Bool :=
  match catv.asNat? with
  | none => Except.error (RepoErr.dbFailure "invalid category_id parameter")
  | some cid => Except.ok (db.categories.any (fun c => c.id == cid && c.user_id == uid))

end TaskRepository

/-- The body of a createTask call, after route-level shaping: optional
fields absent when the client did not send them; category_id kept as the
raw JavaScript value so the method's truthiness guard is modelled
exactly. -/
structure TaskData where
  title : String
  description : Option String
  priority : Option String
  due_date : Option Int
  category_id : Option FVal
deriving DecidableEq

/-- The body of an updateTask call: outer Option distinguishes an absent
property (undefined, not written) from a supplied one; for due_date and
category_id the inner Option distinguishes an explicit null. -/
structure UpdateData where
  title : Option String
  description : Option (Option String)
  completed : Option Bool
  priority : Option String
  due_date : Option (Option Int)
  category_id : Option (Option FVal)
deriving DecidableEq

/-- Number of SET clauses updateTask builds (one per supplied field). -/
def UpdateData.fieldCount (u : UpdateData) : Nat :=
  (if u.title.isSome then 1 else 0) + (if u.description.isSome then 1 else 0)
  + (if u.completed.isSome then 1 else 0) + (if u.priority.isSome then 1 else 0)
  + (if u.due_date.isSome then 1 else 0) + (if u.category_id.isSome then 1 else 0)

namespace TaskRepository

/-- The category_id parameter the INSERT sends: absent becomes NULL, a
supplied value must read as an integer for the parameterized statement to
execute. -/
def categoryInsertParam : Option FVal → Except String (Option Nat)
  | none => Except.ok none
  | some cv =>
    match cv.asNat? with
    | some cid => Except.ok (some cid)
    | none => Except.error "invalid category_id parameter"

/-- The INSERT of createTask, including the relational store's foreign key
on tasks.category_id (documented in the source: categories are deleted
with ON DELETE SET NULL on that constraint): a non-null category_id
referencing no category row makes the statement fail; otherwise the new
row is written with the serial id and CURRENT_TIMESTAMP, and
invalidateUserTasksCache deletes the two literal invalidation keys. -/
def createTaskInsert (env : Env) (uid : Nat) (data : TaskData) (evs : List Ev) :
    ROut DbTask :=
  match categoryInsertParam data.category_id with
  | Except.error m => ⟨Except.error (RepoErr.dbFailure m), env, evs ++ [Ev.dbWrite]⟩
  | Except.ok catId =>
    let fkOk := match catId with
      | none => true
      | some cid => env.db.categories.any (fun c => c.id == cid)
    if fkOk then
      let t : DbTask := ⟨env.nextId, data.title, data.description, false,
                         data.priority.getD "medium", data.due_date, env.now, env.now,
                         uid, catId⟩
      let ks := invalidationKeys uid
      ⟨Except.ok t,
       { env with db := { env.db with tasks := env.db.tasks ++ [t] },
                  nextId := env.nextId + 1,
                  cache := deleteCachedKeys env.cache ks },
       evs ++ [Ev.dbWrite] ++ ks.map Ev.cacheDel⟩
    else ⟨Except.error (RepoErr.dbFailure "foreign key violation"), env, evs ++ [Ev.dbWrite]⟩

/-- TaskRepository.createTask: `if (category_id)` guards the ownership
check (so only a truthy category_id is validated), a failed check throws
the Category-not-found business error before any INSERT, and a passing
or skipped check proceeds to the INSERT followed by cache
invalidation. -/
def createTask (env : Env) (uid : Nat) (data : TaskData) : ROut DbTask :=
  match data.category_id with
  | some cv =>
    if cv.truthy then
      match validateCategoryOwnershipE env.db cv uid with
      | Except.error e => ⟨Except.error e, env, [Ev.dbRead]⟩
      | Except.ok true => createTaskInsert env uid data [Ev.dbRead]
      | Except.ok false => ⟨Except.error RepoErr.categoryNotOwned, env, [Ev.dbRead]⟩
    else createTaskInsert env uid data []
  | none => createTaskInsert env uid data []

/-- The UPDATE row rewrite: supplied fields replace the old values (an
explicit null clears the column), updated_at := CURRENT_TIMESTAMP. A
supplied category value reaches this point only after the ownership check
passed, so its integer reading is defined. -/
def applyUpdate (u : UpdateData) (now : Nat) (t : DbTask) : DbTask :=
  { t with
    title := u.title.getD t.title,
    description := match u.description with
      | some d => d
      | none => t.description,
    completed := u.completed.getD t.completed,
    priority := u.priority.getD t.priority,
    due_date := match u.due_date with
      | some d => d
      | none => t.due_date,
    category_id := match u.category_id with
      | some (some cv) => cv.asNat?
      | some none => none
      | none => t.category_id,
    updated_at := now }

/-- TaskRepository.updateTask: getTaskById first (returning null when the
task does not exist), then the ownership check for a supplied non-null
category_id (`category_id !== undefined && category_id !== null`), then
the No-fields-to-update guard, then the UPDATE ... RETURNING, then
invalidation of the two user-level keys plus the task's own key. -/
def updateTask (env : Env) (tid uid : Nat) (upd : UpdateData) : ROut (Option DbTask) :=
  let g := getTaskById env tid uid
  match g.res with
  | Except.error e => ⟨Except.error e, g.env, g.events⟩
  | Except.ok none => ⟨Except.ok none, g.env, g.events⟩
  | Except.ok (some _) =>
    let checked : Except RepoErr Unit × List Ev :=
      match upd.category_id with
      | some (some cv) =>
        match validateCategoryOwnershipE g.env.db cv uid with
        | Except.error e => (Except.error e, [Ev.dbRead])
        | Except.ok true => (Except.ok (), [Ev.dbRead])
        | Except.ok false => (Except.error RepoErr.categoryNotOwned, [Ev.dbRead])
      | _ => (Except.ok (), [])
    match checked with
    | (Except.error e, evs) => ⟨Except.error e, g.env, g.events ++ evs⟩
    | (Except.ok _, evs) =>
      if upd.fieldCount = 0 then
        ⟨Except.error RepoErr.noFieldsToUpdate, g.env, g.events ++ evs⟩
      else
        match g.env.db.tasks.find? (fun t => t.id == tid && t.user_id == uid) with
        | none => ⟨Except.ok none, g.env, g.events ++ evs ++ [Ev.dbWrite]⟩
        | some t =>
          let t2 := applyUpdate upd g.env.now t
          let db2 := { g.env.db with
            tasks := g.env.db.tasks.map
              (fun x => if x.id == tid && x.user_id == uid then t2 else x) }
          let ks := invalidationKeys uid ++ [taskCacheKey tid uid]
          ⟨Except.ok (some t2),
           { g.env with db := db2, cache := deleteCachedKeys g.env.cache ks },
           g.events ++ evs ++ [Ev.dbWrite] ++ ks.map Ev.cacheDel⟩

/-- TaskRepository.deleteTask: DELETE ... WHERE id AND user_id RETURNING
id; empty RETURNING means false with no invalidation, otherwise the row
is removed, the two user-level keys and the task's own key are deleted
from the cache, and the call returns true. -/
def deleteTask (env : Env) (tid uid : Nat) : ROut Bool :=
  let hit := env.db.tasks.filter (fun t => t.id == tid && t.user_id == uid)
  if hit.isEmpty then ⟨Except.ok false, env, [Ev.dbWrite]⟩
  else
    let db2 := { env.db with
      tasks := env.db.tasks.filter (fun t => !(t.id == tid && t.user_id == uid)) }
    let ks := invalidationKeys uid ++ [taskCacheKey tid uid]
    ⟨Except.ok true,
     { env with db := db2, cache := deleteCachedKeys env.cache ks },
     [Ev.dbWrite] ++ ks.map Ev.cacheDel⟩

end TaskRepository

/-- A sample task owned by user 1 (priority high, not completed). -/
def sampleTask : DbTask := ⟨1, "A", none, false, "high", none, 100, 100, 1, none⟩

/-- An empty repository cache. -/
def emptyCache : RepoCache := ⟨[], [], []⟩

/-- World holding just sampleTask, with an empty cache. -/
def listEnv : Env := ⟨⟨[sampleTask], []⟩, emptyCache, 200, 2⟩

/-- World after getUserTasks(1, empty filters) has populated the list cache. -/
def C1_env1 : Env := (TaskRepository.getUserTasks listEnv 1 []).env

/-- Body of the mutating createTask of the staleness scenario. -/
def C1_data : TaskData := ⟨"B", none, none, none, none⟩

/-- World after the successful createTask (its invalidation included). -/
def C1_env2 : Env := (TaskRepository.createTask C1_env1 1 C1_data).env

/-- Filters priority-first. -/
def C2_fsA : Filters := [("priority", FVal.fstr "high"), ("completed", FVal.fbool false)]

/-- The same filter pairs, completed-first. -/
def C2_fsB : Filters := [("completed", FVal.fbool false), ("priority", FVal.fstr "high")]

/-- World whose categories table holds category 5 owned by user 2. -/
def C7_env : Env := ⟨⟨[], [⟨5, 2, "work", "ffffff"⟩]⟩, emptyCache, 300, 1⟩

/-- createTask body supplying the falsy category_id 0 (a value that
references no category of any user). -/
def C7_data : TaskData := ⟨"T", none, none, none, some (FVal.fnat 0)⟩

/-- Filters carrying the disallowed sort token id. -/
def C9_fs : Filters := [("sort", FVal.fstr "id")]

/-- Service state after a write hit ECONNREFUSED: `_handleError` marked
the service unavailable. -/
def C3_st1 : CSState :=
  (CacheService.set ⟨true, true⟩ [] "k" (JsVal.jstr "v") none (some "ECONNREFUSED")).state

/-- Claim C1: after the cache was populated by a list read, a successful
createTask, and a repeated list read for the same owner: the mutation's
invalidation (which deletes only the literal keys user_tasks:1 and
user_task_stats:1) leaves the filter-keyed list entry in place, so the
repeated read returns the pre-mutation single-task response from cache
(fromCache true) while the store already holds two tasks — the claimed
removal of every filter-hashed list key does not happen. -/
theorem C1_stale_read :
    (TaskRepository.getUserTasks C1_env2 1 []).res
      = Except.ok (⟨[joinRow [] sampleTask], ⟨1, 50, 0, false⟩⟩, true)
    ∧ C1_env2.db.tasks.length = 2
    ∧ (TaskRepository.createTask C1_env1 1 C1_data).res
      = Except.ok ⟨2, "B", none, false, "medium", none, 200, 200, 1, none⟩ := by
  decide

/-- Claim C2 counterexample: reordering the same filter pairs changes the
list path's cache key (JSON.stringify preserves insertion order), and the
second list call misses the cache (fromCache false), not the claimed
hit. -/
theorem C2_reordered_filters_miss :
    TaskRepository.userTasksCacheKey 1 C2_fsA ≠ TaskRepository.userTasksCacheKey 1 C2_fsB
    ∧ (TaskRepository.getUserTasks (TaskRepository.getUserTasks listEnv 1 C2_fsA).env
         1 C2_fsB).res
      = Except.ok (⟨[joinRow [] sampleTask], ⟨1, 50, 0, false⟩⟩, false) := by
  decide

/-- Claim C3 counterexample: after a connection failure marked the service
unavailable, a get that the backend could serve (the key is present, no
fault is injected) still returns a miss without contacting the backend and
leaves the service unavailable — no subsequent successful operation exists
to flip the health state back, refuting the claimed recovery. -/
theorem C3_no_recovery :
    C3_st1.isAvailable = false
    ∧ (CacheService.get C3_st1 [("k", "true")] "k" none).res = Except.ok none
    ∧ (CacheService.get C3_st1 [("k", "true")] "k" none).contacted = false
    ∧ (CacheService.get C3_st1 [("k", "true")] "k" none).state.isAvailable = false := by
  decide

/-- Claim C5 counterexample: a write that hits ECONNREFUSED raises
CacheUnavailableError to its caller (`_handleError` throws before the
catch block's `return false` is reached), refuting "the write never
raises". -/
theorem C5_write_raises :
    (CacheService.set ⟨true, true⟩ [] "k" (JsVal.jstr "x") none (some "ECONNREFUSED")).res
      = Except.error CSErr.unavailable := by
  decide

/-- Claim C7 counterexample: createTask with the falsy category_id 0 (a
value owned by no user) skips the truthiness-guarded ownership check,
executes the INSERT, and surfaces the store's foreign-key failure instead
of the claimed business error issued before any INSERT. -/
theorem C7_falsy_category_skips_check :
    (TaskRepository.createTask C7_env 1 C7_data).res
      = Except.error (RepoErr.dbFailure "foreign key violation")
    ∧ (TaskRepository.createTask C7_env 1 C7_data).res
      ≠ Except.error RepoErr.categoryNotOwned
    ∧ Ev.dbWrite ∈ (TaskRepository.createTask C7_env 1 C7_data).events := by
  decide

/-- Claim C8 counterexample: a string value is stored raw, so the
following read JSON.parses the raw text "hello", fails, and returns null
instead of the written value — the write/read round-trip does not hold
for every value. -/
theorem C8_string_roundtrip_fails :
    (CacheService.get
       (CacheService.set ⟨true, true⟩ [] "k" (JsVal.jstr "hello") none none).state
       (CacheService.set ⟨true, true⟩ [] "k" (JsVal.jstr "hello") none none).store
       "k" none).res = Except.ok none
    ∧ (Except.ok none : Except CSErr (Option JsVal))
      ≠ Except.ok (some (JsVal.jstr "hello")) := by
  decide

/-- Claim C9 counterexample: a list call with the disallowed sort token
id is rejected with the validation error, but only after the cache lookup
— the call's trace holds the cache read, refuting "neither the cache
backend nor the relational store is contacted". -/
theorem C9_cache_contacted_before_validation :
    (TaskRepository.getUserTasks listEnv 1 C9_fs).res
      = Except.error (RepoErr.invalidSort "id")
    ∧ (TaskRepository.getUserTasks listEnv 1 C9_fs).events
      = [Ev.cacheGet (TaskRepository.userTasksCacheKey 1 C9_fs)] := by
  decide

/-- Health can only be lost, never regained, by `_handleError`. -/
theorem handleError_health_mono (st : CSState) (code : String) :
    (handleErrorModel st code).2.isAvailable = true → st.isAvailable = true := by
  unfold handleErrorModel
  split <;> simp

/-- CacheService.get never sets the availability flag back to true. -/
theorem get_health_mono (st : CSState) (store : Store) (key : String)
    (fault : Option String) :
    (CacheService.get st store key fault).state.isAvailable = true →
    st.isAvailable = true := by
  rcases st with ⟨avail, red⟩
  cases avail
  · cases red <;> simp [CacheService.get, CSState.isHealthy]
  · intro _; rfl

/-- CacheService.set never sets the availability flag back to true. -/
theorem set_health_mono (st : CSState) (store : Store) (key : String) (v : JsVal)
    (ttl : Option Nat) (fault : Option String) :
    (CacheService.set st store key v ttl fault).state.isAvailable = true →
    st.isAvailable = true := by
  rcases st with ⟨avail, red⟩
  cases avail
  · cases red <;> simp [CacheService.set, CSState.isHealthy]
  · intro _; rfl

/-- CacheService.del never sets the availability flag back to true. -/
theorem del_health_mono (st : CSState) (store : Store) (key : String)
    (fault : Option String) :
    (CacheService.del st store key fault).state.isAvailable = true →
    st.isAvailable = true := by
  rcases st with ⟨avail, red⟩
  cases avail
  · cases red <;> simp [CacheService.del, CSState.isHealthy]
  · intro _; rfl

/-- CacheService.exists never sets the availability flag back to true. -/
theorem existsKey_health_mono (st : CSState) (store : Store) (key : String)
    (fault : Option String) :
    (CacheService.existsKey st store key fault).state.isAvailable = true →
    st.isAvailable = true := by
  rcases st with ⟨avail, red⟩
  cases avail
  · cases red <;> simp [CacheService.existsKey, CSState.isHealthy]
  · intro _; rfl

/-- invalidateCachePattern never sets the availability flag back to true. -/
theorem invalidatePattern_health_mono (st : CSState) (store : Store)
    (pattern : String) (fault : Option String) :
    (CacheService.invalidateCachePattern st store pattern fault).state.isAvailable = true →
    st.isAvailable = true := by
  rcases st with ⟨avail, red⟩
  cases avail
  · cases red <;> simp [CacheService.invalidateCachePattern, CSState.isHealthy]
  · intro _; rfl

/-- Claim C3 (amended): once a connection failure has been observed
(isAvailable is false), every cache get/set/delete/exists/pattern
invalidation short-circuits to a miss or no-op without contacting the
backend and leaves the state unchanged; and no operation ever restores
the availability flag, so the degraded state is permanent for the service
instance (there is no successful call left to flip it back). -/
theorem C3_degraded_short_circuit (st : CSState) (store : Store) (key pattern : String)
    (v : JsVal) (ttl : Option Nat) (fault : Option String)
    (h : st.isAvailable = false) :
    CacheService.get st store key fault = ⟨Except.ok none, st, store, false⟩
    ∧ CacheService.set st store key v ttl fault = ⟨Except.ok false, st, store, false⟩
    ∧ CacheService.del st store key fault = ⟨Except.ok false, st, store, false⟩
    ∧ CacheService.existsKey st store key fault = ⟨Except.ok false, st, store, false⟩
    ∧ CacheService.invalidateCachePattern st store pattern fault
        = ⟨Except.ok ⟨0, false⟩, st, store, false⟩
    ∧ (∀ st2 : CSState, (CacheService.get st2 store key fault).state.isAvailable = true →
         st2.isAvailable = true)
    ∧ (∀ st2 : CSState,
         (CacheService.set st2 store key v ttl fault).state.isAvailable = true →
         st2.isAvailable = true)
    ∧ (∀ st2 : CSState, (CacheService.del st2 store key fault).state.isAvailable = true →
         st2.isAvailable = true)
    ∧ (∀ st2 : CSState,
         (CacheService.existsKey st2 store key fault).state.isAvailable = true →
         st2.isAvailable = true)
    ∧ (∀ st2 : CSState,
         (CacheService.invalidateCachePattern st2 store pattern fault).state.isAvailable = true →
         st2.isAvailable = true) := by
  have hh : st.isHealthy = false := by simp [CSState.isHealthy, h]
  refine ⟨?_, ?_, ?_, ?_, ?_,
          fun st2 => get_health_mono st2 store key fault,
          fun st2 => set_health_mono st2 store key v ttl fault,
          fun st2 => del_health_mono st2 store key fault,
          fun st2 => existsKey_health_mono st2 store key fault,
          fun st2 => invalidatePattern_health_mono st2 store pattern fault⟩
  · simp [CacheService.get, hh]
  · simp [CacheService.set, hh]
  · simp [CacheService.del, hh]
  · simp [CacheService.existsKey, hh]
  · simp [CacheService.invalidateCachePattern, hh]

/-- Witness for C3's amended theorem at a concrete degraded state. -/
theorem C3_degraded_witness :
    CacheService.get ⟨false, true⟩ [("k", "true")] "k" none
      = ⟨Except.ok none, ⟨false, true⟩, [("k", "true")], false⟩ :=
  (C3_degraded_short_circuit ⟨false, true⟩ [("k", "true")] "k" "p" JsVal.jnull
    none none rfl).1

/-- Claim C5 (amended): the cache write returns false immediately when the
service is unhealthy without contacting the backend; a non-connection
backend error during the write is caught and converted to false; but a
connection error (ECONNREFUSED/ENOTFOUND) marks the service unavailable
and raises CacheUnavailableError to the caller. -/
theorem C5_write_policy (st : CSState) (store : Store) (key : String) (v : JsVal)
    (ttl : Option Nat) (code : String) (hh : st.isHealthy = true) :
    (CacheService.set st store key v ttl none).res = Except.ok true
    ∧ (isConnErrCode code = false →
        CacheService.set st store key v ttl (some code) = ⟨Except.ok false, st, store, true⟩)
    ∧ (isConnErrCode code = true →
        CacheService.set st store key v ttl (some code)
          = ⟨Except.error CSErr.unavailable, { st with isAvailable := false }, store, true⟩)
    ∧ (∀ st2 : CSState, st2.isHealthy = false →
        CacheService.set st2 store key v ttl (some code) = ⟨Except.ok false, st2, store, false⟩) := by
  refine ⟨?_, ?_, ?_, ?_⟩
  · simp [CacheService.set, hh]
  · intro hc; simp [CacheService.set, handleErrorModel, hh, hc]
  · intro hc; simp [CacheService.set, handleErrorModel, hh, hc]
  · intro st2 h2; simp [CacheService.set, h2]

/-- Witness for C5's amended theorem at a concrete non-connection fault. -/
theorem C5_write_policy_witness :
    CacheService.set ⟨true, true⟩ [] "k" JsVal.jnull none (some "EPARSE")
      = ⟨Except.ok false, ⟨true, true⟩, [], true⟩ :=
  (C5_write_policy ⟨true, true⟩ [] "k" JsVal.jnull none "EPARSE" rfl).2.1 rfl

/-- Claim C6: for every transaction body, a normal completion commits and
returns the body's result, a body exception rolls the transaction back
(the ROLLBACK runs before the exception reaches the caller) and
propagates that same exception, and every exit path — success, business
exception, infrastructure exception — releases the connection exactly
once (the third conjunct quantifies over all environments, begin/commit/
rollback failures included). -/
theorem C6_executeTransaction_scoping {ε α : Type} (env : TxEnv ε α)
    (hb : env.beginErr = none) :
    (∀ a : α, env.body = Except.ok a → env.commitErr = none →
       executeTransaction env
         = ⟨Except.ok a, [TxEv.beginTx, TxEv.bodyRun, TxEv.commitTx, TxEv.releaseConn]⟩)
    ∧ (∀ e : ε, env.body = Except.error e → env.rollbackErr = none →
       executeTransaction env
         = ⟨Except.error e, [TxEv.beginTx, TxEv.bodyRun, TxEv.rollbackTx, TxEv.releaseConn]⟩)
    ∧ (∀ env2 : TxEnv ε α,
        (executeTransaction env2).events.count TxEv.releaseConn = 1) := by
  refine ⟨?_, ?_, ?_⟩
  · intro a hbody hc
    simp [executeTransaction, hb, hbody, hc]
  · intro e hbody hr
    simp [executeTransaction, hb, hbody, hr]
  · intro env2
    rcases env2 with ⟨b, body, c, r⟩
    cases b <;> cases body <;> cases c <;> cases r <;>
      simp [executeTransaction, List.count_append, List.count_cons]

/-- Witness for C6 at a concrete successful transaction body. -/
theorem C6_executeTransaction_witness :
    executeTransaction (⟨none, Except.ok 5, none, none⟩ : TxEnv String Nat)
      = ⟨Except.ok 5, [TxEv.beginTx, TxEv.bodyRun, TxEv.commitTx, TxEv.releaseConn]⟩ :=
  (C6_executeTransaction_scoping (⟨none, Except.ok 5, none, none⟩ : TxEnv String Nat)
    rfl).1 5 rfl rfl

/-- A freshly SETEX'd key reads back its payload. -/
theorem storeGet_storeSet_self (store : Store) (k v : String) :
    storeGet (storeSet store k v) k = some v := by
  simp [storeGet, storeSet]

/-- Claim C8 (amended): for every non-string value, with a healthy backend
and unexpired TTL, a cache write followed by a read of the same key
returns the written value; string values are stored raw and read back
through JSON.parse of the raw text, so the round-trip does not extend to
them. -/
theorem C8_roundtrip_nonstring (st : CSState) (store : Store) (key : String)
    (v : JsVal) (ttl : Option Nat) (hh : st.isHealthy = true) (hv : v.isStr = false) :
    (CacheService.set st store key v ttl none).res = Except.ok true
    ∧ (CacheService.get (CacheService.set st store key v ttl none).state
         (CacheService.set st store key v ttl none).store key none).res
      = Except.ok (some v) := by
  have hset : CacheService.set st store key v ttl none
      = ⟨Except.ok true, st, storeSet store key (cacheValueOf v), true⟩ := by
    simp [CacheService.set, hh]
  refine ⟨by rw [hset], ?_⟩
  rw [hset]
  have hget := storeGet_storeSet_self store key (cacheValueOf v)
  cases v with
  | jnull =>
    have h1 : jsonParse (cacheValueOf JsVal.jnull) = some JsVal.jnull := by decide
    have h2 : ¬(cacheValueOf JsVal.jnull = "") := by decide
    simp [CacheService.get, hh, hget, h1, h2]
  | jbool b =>
    cases b with
    | true =>
      have h1 : jsonParse (cacheValueOf (JsVal.jbool true)) = some (JsVal.jbool true) := by
        decide
      have h2 : ¬(cacheValueOf (JsVal.jbool true) = "") := by decide
      simp [CacheService.get, hh, hget, h1, h2]
    | false =>
      have h1 : jsonParse (cacheValueOf (JsVal.jbool false)) = some (JsVal.jbool false) := by
        decide
      have h2 : ¬(cacheValueOf (JsVal.jbool false) = "") := by decide
      simp [CacheService.get, hh, hget, h1, h2]
  | jstr s => simp [JsVal.isStr] at hv

/-- Witness for C8's amended theorem at a concrete non-string value. -/
theorem C8_roundtrip_witness :
    (CacheService.get (CacheService.set ⟨true, true⟩ [] "key" JsVal.jnull none none).state
       (CacheService.set ⟨true, true⟩ [] "key" JsVal.jnull none none).store
       "key" none).res = Except.ok (some JsVal.jnull) :=
  (C8_roundtrip_nonstring ⟨true, true⟩ [] "key" JsVal.jnull none rfl rfl).2

/-- Claim C9 (amended): on a cache miss, a list call whose sort or order
token fails the allow-list validation is rejected with that validation
error after the single cache lookup and before any relational access: the
world is unchanged and the trace holds exactly the cache read, no
relational read or write. -/
theorem C9_validation_before_relational (env : Env) (uid : Nat) (filters : Filters)
    (e : RepoErr)
    (hmiss : alookup env.cache.lists (TaskRepository.userTasksCacheKey uid filters) = none)
    (hval : validateSortOrder filters = Except.error e) :
    TaskRepository.getUserTasks env uid filters
      = ⟨Except.error e, env, [Ev.cacheGet (TaskRepository.userTasksCacheKey uid filters)]⟩
    ∧ Ev.dbRead ∉ (TaskRepository.getUserTasks env uid filters).events
    ∧ Ev.dbWrite ∉ (TaskRepository.getUserTasks env uid filters).events := by
  have h1 : TaskRepository.getUserTasks env uid filters
      = ⟨Except.error e, env, [Ev.cacheGet (TaskRepository.userTasksCacheKey uid filters)]⟩ := by
    unfold TaskRepository.getUserTasks
    simp [hmiss, hval]
  exact ⟨h1, by rw [h1]; simp, by rw [h1]; simp⟩

/-- Witness for C9's amended theorem at the disallowed sort token id. -/
theorem C9_validation_witness :
    TaskRepository.getUserTasks listEnv 1 C9_fs
      = ⟨Except.error (RepoErr.invalidSort "id"), listEnv,
         [Ev.cacheGet (TaskRepository.userTasksCacheKey 1 C9_fs)]⟩ :=
  (C9_validation_before_relational listEnv 1 C9_fs (RepoErr.invalidSort "id")
    (by decide) (by decide)).1

/-- Claim C10: when no task row matches the id/owner pair, deleteTask
returns false, leaves the cache (and the whole world) unchanged and
performs no cache deletion; and across all inputs, any cache deletion in
a deleteTask trace implies the call deleted a row and returned true. -/
theorem C10_delete_miss_no_invalidation (env : Env) (tid uid : Nat)
    (h : env.db.tasks.all (fun t => !(t.id == tid && t.user_id == uid)) = true) :
    TaskRepository.deleteTask env tid uid = ⟨Except.ok false, env, [Ev.dbWrite]⟩
    ∧ (TaskRepository.deleteTask env tid uid).env.cache = env.cache
    ∧ (∀ k, Ev.cacheDel k ∉ (TaskRepository.deleteTask env tid uid).events)
    ∧ (∀ env2 : Env, ∀ tid2 uid2 : Nat, ∀ k : String,
        Ev.cacheDel k ∈ (TaskRepository.deleteTask env2 tid2 uid2).events →
        (TaskRepository.deleteTask env2 tid2 uid2).res = Except.ok true) := by
  have hfilter : env.db.tasks.filter (fun t => t.id == tid && t.user_id == uid) = [] := by
    rw [List.filter_eq_nil_iff]
    intro t ht
    have := List.all_eq_true.mp h t ht
    simp only [Bool.not_eq_true'] at this
    simp [this]
  have h1 : TaskRepository.deleteTask env tid uid = ⟨Except.ok false, env, [Ev.dbWrite]⟩ := by
    unfold TaskRepository.deleteTask
    simp [hfilter]
  refine ⟨h1, by rw [h1], fun k => by rw [h1]; simp, ?_⟩
  intro env2 tid2 uid2 k hk
  unfold TaskRepository.deleteTask at hk ⊢
  by_cases h2 : (env2.db.tasks.filter (fun t => t.id == tid2 && t.user_id == uid2)).isEmpty = true
  · simp [h2] at hk
  · simp [h2]

/-- Witness for C10 at a task id absent from the store. -/
theorem C10_delete_miss_witness :
    TaskRepository.deleteTask listEnv 99 1 = ⟨Except.ok false, listEnv, [Ev.dbWrite]⟩ :=
  (C10_delete_miss_no_invalidation listEnv 99 1 (by decide)).1

/-- getTaskById is a pure read: the relational store is unchanged. -/
theorem getTaskById_env_db (env : Env) (tid uid : Nat) :
    (TaskRepository.getTaskById env tid uid).env.db = env.db := by
  unfold TaskRepository.getTaskById
  cases h : alookup env.cache.items (TaskRepository.taskCacheKey tid uid) with
  | some row => simp [h]
  | none =>
    cases h2 : env.db.tasks.find? (fun t => t.id == tid && t.user_id == uid) with
    | none => simp [h, h2]
    | some t => simp [h, h2]

/-- getTaskById executes no mutating statement. -/
theorem getTaskById_no_dbWrite (env : Env) (tid uid : Nat) :
    Ev.dbWrite ∉ (TaskRepository.getTaskById env tid uid).events := by
  unfold TaskRepository.getTaskById
  cases h : alookup env.cache.items (TaskRepository.taskCacheKey tid uid) with
  | some row => simp [h]
  | none =>
    cases h2 : env.db.tasks.find? (fun t => t.id == tid && t.user_id == uid) with
    | none => simp [h, h2]
    | some t => simp [h, h2]

/-- Claim C7 (amended): a createTask supplying a truthy category_id not
owned by the caller, and an updateTask supplying a non-null category_id
not owned by the caller (on an existing task), are both rejected with the
Category-not-found business error before any INSERT or UPDATE statement
runs (no relational write in either trace, store unchanged), and that
business error is distinct from every relational dbFailure error; the
guard `if (category_id)` exempts falsy createTask values such as 0, which
reach the INSERT and fail only at the store's foreign key. -/
theorem C7_ownership_rejection (env : Env) (uid tid : Nat) (cv : FVal)
    (data : TaskData) (upd : UpdateData) (row : TaskRow × Bool)
    (hA1 : data.category_id = some cv) (hA2 : cv.truthy = true)
    (hB1 : upd.category_id = some (some cv))
    (hOwn : TaskRepository.validateCategoryOwnershipE env.db cv uid = Except.ok false)
    (hEx : (TaskRepository.getTaskById env tid uid).res = Except.ok (some row)) :
    TaskRepository.createTask env uid data
      = ⟨Except.error RepoErr.categoryNotOwned, env, [Ev.dbRead]⟩
    ∧ (TaskRepository.updateTask env tid uid upd).res = Except.error RepoErr.categoryNotOwned
    ∧ Ev.dbWrite ∉ (TaskRepository.createTask env uid data).events
    ∧ Ev.dbWrite ∉ (TaskRepository.updateTask env tid uid upd).events
    ∧ (TaskRepository.updateTask env tid uid upd).env.db = env.db
    ∧ (∀ m : String, RepoErr.categoryNotOwned ≠ RepoErr.dbFailure m) := by
  have hcreate : TaskRepository.createTask env uid data
      = ⟨Except.error RepoErr.categoryNotOwned, env, [Ev.dbRead]⟩ := by
    unfold TaskRepository.createTask
    simp [hA1, hA2, hOwn]
  have hOwn2 : TaskRepository.validateCategoryOwnershipE
      (TaskRepository.getTaskById env tid uid).env.db cv uid = Except.ok false := by
    rw [getTaskById_env_db]; exact hOwn
  have hupdate : TaskRepository.updateTask env tid uid upd
      = ⟨Except.error RepoErr.categoryNotOwned, (TaskRepository.getTaskById env tid uid).env,
         (TaskRepository.getTaskById env tid uid).events ++ [Ev.dbRead]⟩ := by
    unfold TaskRepository.updateTask
    simp [hEx, hB1, hOwn2]
  refine ⟨hcreate, by rw [hupdate], by rw [hcreate]; simp, ?_, ?_, by intro m h; cases h⟩
  · rw [hupdate]
    simp [getTaskById_no_dbWrite env tid uid]
  · rw [hupdate]
    exact getTaskById_env_db env tid uid

/-- Witness for C7's amended theorem: category 5 belongs to user 2, so
user 1's createTask naming it is rejected before the INSERT. -/
theorem C7_ownership_witness :
    TaskRepository.createTask ⟨⟨[sampleTask], [⟨5, 2, "work", "ffffff"⟩]⟩, emptyCache, 300, 9⟩
        1 ⟨"T", none, none, none, some (FVal.fnat 5)⟩
      = ⟨Except.error RepoErr.categoryNotOwned,
         ⟨⟨[sampleTask], [⟨5, 2, "work", "ffffff"⟩]⟩, emptyCache, 300, 9⟩, [Ev.dbRead]⟩ :=
  (C7_ownership_rejection ⟨⟨[sampleTask], [⟨5, 2, "work", "ffffff"⟩]⟩, emptyCache, 300, 9⟩
    1 1 (FVal.fnat 5) ⟨"T", none, none, none, some (FVal.fnat 5)⟩
    ⟨some "X", none, none, none, none, some (some (FVal.fnat 5))⟩
    (joinRow [⟨5, 2, "work", "ffffff"⟩] sampleTask, false)
    rfl rfl rfl (by decide) (by decide)).1

/-- On duplicate-free keys (JS objects cannot repeat a property), lookup
is invariant under permutation of the entries. -/
theorem alookup_eq_of_perm {β : Type} {l1 l2 : List (String × β)} (h : l1.Perm l2) :
    (l1.map Prod.fst).Nodup → ∀ k, alookup l1 k = alookup l2 k := by
  induction h with
  | nil => intro _ k; rfl
  | cons x h ih =>
    intro nd k
    rcases x with ⟨kx, vx⟩
    rw [List.map_cons] at nd
    have nd2 := nd.of_cons
    by_cases hk : kx = k
    · show (if kx = k then some vx else alookup _ k)
        = (if kx = k then some vx else alookup _ k)
      rw [if_pos hk, if_pos hk]
    · show (if kx = k then some vx else alookup _ k)
        = (if kx = k then some vx else alookup _ k)
      rw [if_neg hk, if_neg hk]
      exact ih nd2 k
  | swap x y l =>
    intro nd k
    rcases x with ⟨kx, vx⟩
    rcases y with ⟨ky, vy⟩
    rw [List.map_cons, List.map_cons] at nd
    have hne : ky ≠ kx := by
      intro hc
      exact (List.nodup_cons.mp nd).1 (by simp [hc])
    show (if ky = k then some vy else if kx = k then some vx else alookup l k)
      = (if kx = k then some vx else if ky = k then some vy else alookup l k)
    by_cases h1 : ky = k <;> by_cases h2 : kx = k
    · exact absurd (h1.trans h2.symm) hne
    · rw [if_pos h1, if_neg h2, if_pos h1]
    · rw [if_neg h1, if_pos h2, if_pos h2]
    · rw [if_neg h1, if_neg h2, if_neg h2, if_neg h1]
  | trans h1 h2 ih1 ih2 =>
    intro nd k
    rw [ih1 nd k]
    exact ih2 ((h1.map Prod.fst).nodup nd) k

/-- Permuted key lists sort to the same list under the total order on
strings. -/
theorem insertionSort_eq_of_perm {l1 l2 : List String} (h : l1.Perm l2) :
    List.insertionSort (fun a b : String => a ≤ b) l1
      = List.insertionSort (fun a b : String => a ≤ b) l2 := by
  haveI : IsAntisymm String (fun a b : String => a ≤ b) :=
    ⟨fun a b h1 h2 => le_antisymm h1 h2⟩
  haveI : IsTotal String (fun a b : String => a ≤ b) := ⟨le_total⟩
  haveI : IsTrans String (fun a b : String => a ≤ b) := ⟨fun a b c => le_trans⟩
  exact List.eq_of_perm_of_sorted
    ((List.perm_insertionSort _ l1).trans (h.trans (List.perm_insertionSort _ l2).symm))
    (List.sorted_insertionSort _ l1)
    (List.sorted_insertionSort _ l2)

/-- Claim C2 (amended): the CacheService filter hash sorts the keys before
joining, so for set-equal filter objects differing only in insertion
order the user-tasks cache key of CacheService.keyPatterns is identical;
the repository's list read path instead keys on JSON.stringify(filters),
which preserves insertion order, so there the reordered call misses (the
counterexample theorem). -/
theorem C2_hash_order_insensitive (uid : Nat) (fs1 fs2 : Filters) (hperm : fs1.Perm fs2)
    (hnd : (fs1.map Prod.fst).Nodup) :
    CacheService.userTasksKey uid fs1 = CacheService.userTasksKey uid fs2 := by
  unfold CacheService.userTasksKey CacheService.hashFilters
  have hkeys : List.insertionSort (fun a b : String => a ≤ b) (fs1.map Prod.fst)
      = List.insertionSort (fun a b : String => a ≤ b) (fs2.map Prod.fst) :=
    insertionSort_eq_of_perm (hperm.map Prod.fst)
  have hfun : (fun k => k ++ ":" ++ (match alookup fs1 k with
                | some v => v.asString
                | none => "undefined"))
      = (fun k => k ++ ":" ++ (match alookup fs2 k with
                | some v => v.asString
                | none => "undefined")) := by
    funext k
    rw [alookup_eq_of_perm hperm hnd k]
  simp only [hkeys, hfun]

/-- Witness for C2's amended theorem at a concrete reordered filter pair. -/
theorem C2_hash_witness :
    CacheService.userTasksKey 7 [("a", FVal.fstr "1"), ("b", FVal.fstr "2")]
      = CacheService.userTasksKey 7 [("b", FVal.fstr "2"), ("a", FVal.fstr "1")] :=
  C2_hash_order_insensitive 7 _ _ (List.Perm.swap _ _ _) (by decide)

/-- A key listed in the store's key enumeration is held by the store. -/
theorem storeHas_of_mem_map {store : Store} {k : String}
    (hk : k ∈ store.map Prod.fst) : storeHas store k = true := by
  rcases List.mem_map.mp hk with ⟨p, hp, rfl⟩
  exact List.any_eq_true.mpr ⟨p, hp, by simp⟩

/-- storeHas unfolded to an existence statement. -/
theorem storeHas_iff {store : Store} {k : String} :
    storeHas store k = true ↔ ∃ p ∈ store, p.1 = k := by
  simp [storeHas, List.any_eq_true]

/-- The empty-snapshot case of the scan loop. -/
theorem scanLoopGo_nil (pattern : String) (st : Store) (acc : Nat) :
    CacheService.scanLoopGo pattern [] st acc = (st, acc) := by
  simp [CacheService.scanLoopGo]

/-- One page of the scan loop. -/
theorem scanLoopGo_cons (pattern x : String) (pend2 : List String)
    (st : Store) (acc : Nat) :
    CacheService.scanLoopGo pattern (x :: pend2) st acc
      = CacheService.scanLoopGo pattern ((x :: pend2).drop 100)
          (delKeysCount st
            (((x :: pend2).take 100).filter (fun k => globMatch pattern k))).1
          (acc + (delKeysCount st
            (((x :: pend2).take 100).filter (fun k => globMatch pattern k))).2) := by
  rw [CacheService.scanLoopGo]

/-- Pointwise composition of a page's batched delete with the pending
remainder: deleting the page's matches and then the rest's matches
removes exactly the matches of the concatenation. -/
theorem scan_step_store (st : Store) (pattern : String) (page rest : List String) :
    List.filter (fun p => !(rest.contains p.1 && globMatch pattern p.1))
        (List.filter (fun p => !((page.filter
          (fun k => globMatch pattern k)).contains p.1)) st)
      = List.filter (fun p => !((page ++ rest).contains p.1 && globMatch pattern p.1)) st := by
  rw [List.filter_filter]
  apply List.filter_congr
  intro p _
  by_cases hpg : p.1 ∈ page <;> by_cases hg : globMatch pattern p.1 = true <;>
    by_cases hr : p.1 ∈ rest <;>
    simp [List.mem_filter, List.mem_append, hpg, hg, hr]

/-- Full specification of the SCAN-and-DEL loop: over a duplicate-free
snapshot whose keys the store holds, the loop removes exactly the
entries whose key is a matching snapshot key, and counts exactly the
matching snapshot keys — independent of how many cursor pages the
snapshot spans. -/
theorem scanLoopGo_spec (pattern : String) (n : Nat) :
    ∀ (pending : List String), pending.length ≤ n →
    ∀ (st : Store) (acc : Nat), pending.Nodup →
    (∀ k ∈ pending, storeHas st k = true) →
    CacheService.scanLoopGo pattern pending st acc
      = (st.filter (fun p => !(pending.contains p.1 && globMatch pattern p.1)),
         acc + (pending.filter (fun k => globMatch pattern k)).length) := by
  induction n with
  | zero =>
    intro pending hlen st acc _ _
    have hnil : pending = [] := List.eq_nil_of_length_eq_zero (Nat.le_zero.mp hlen)
    subst hnil
    simp [scanLoopGo_nil]
  | succ n ih =>
    intro pending hlen st acc nd hhas
    cases pending with
    | nil => simp [scanLoopGo_nil]
    | cons x pend2 =>
      rw [scanLoopGo_cons]
      have hsplit : (x :: pend2).take 100 ++ (x :: pend2).drop 100 = x :: pend2 :=
        List.take_append_drop 100 (x :: pend2)
      have ndapp : ((x :: pend2).take 100 ++ (x :: pend2).drop 100).Nodup := by
        rw [hsplit]; exact nd
      obtain ⟨ndpage, ndrest, hdisj⟩ := List.nodup_append.mp ndapp
      have hmem_page : ∀ k ∈ (x :: pend2).take 100, k ∈ x :: pend2 := by
        intro k hk
        rw [← hsplit]
        exact List.mem_append.mpr (Or.inl hk)
      have hmatched_sub : ∀ k ∈ ((x :: pend2).take 100).filter
          (fun k => globMatch pattern k), k ∈ (x :: pend2).take 100 :=
        fun k hk => (List.mem_filter.mp hk).1
      have hdel2 : (delKeysCount st (((x :: pend2).take 100).filter
            (fun k => globMatch pattern k))).2
          = (((x :: pend2).take 100).filter (fun k => globMatch pattern k)).length := by
        unfold delKeysCount
        exact congrArg List.length (List.filter_eq_self.mpr
          (fun k hk => hhas k (hmem_page k (hmatched_sub k hk))))
      have hlen2 : ((x :: pend2).drop 100).length ≤ n := by
        rw [List.length_drop]
        simp only [List.length_cons] at hlen ⊢
        omega
      have hhas2 : ∀ k ∈ (x :: pend2).drop 100,
          storeHas (delKeysCount st (((x :: pend2).take 100).filter
            (fun k => globMatch pattern k))).1 k = true := by
        intro k hk
        have hknot : k ∉ ((x :: pend2).take 100).filter (fun k => globMatch pattern k) :=
          fun hc => hdisj (hmatched_sub k hc) hk
        have hcont : (((x :: pend2).take 100).filter
            (fun k => globMatch pattern k)).contains k = false := by
          simpa using hknot
        rcases storeHas_iff.mp (hhas k (List.mem_of_mem_drop hk)) with ⟨p, hp, hpk⟩
        apply storeHas_iff.mpr
        refine ⟨p, List.mem_filter.mpr ⟨hp, ?_⟩, hpk⟩
        rw [hpk, hcont]
        rfl
      rw [ih ((x :: pend2).drop 100) hlen2 _ _ ndrest hhas2]
      refine Prod.ext ?_ ?_
      · show (List.filter _ (List.filter _ st)) = _
        rw [scan_step_store st pattern ((x :: pend2).take 100) ((x :: pend2).drop 100),
            hsplit]
      · show acc + _ + _ = acc + _
        rw [hdel2]
        conv_rhs => rw [show (x :: pend2) = (x :: pend2).take 100 ++ (x :: pend2).drop 100
          from hsplit.symm]
        rw [List.filter_append, List.length_append]
        omega

/-- Claim C4: for every pattern and healthy cache state, the cursor loop
of invalidateCachePattern (one batched DEL per scan page, until the
cursor returns to the sentinel) deletes exactly the keys matching the
pattern — N of them, across however many pages the keyspace spans —
leaves every non-matching entry untouched, keeps the service state, and
returns a summary whose deleted count is N with success true. -/
theorem C4_pattern_invalidation (st : CSState) (store : Store) (pattern : String)
    (hh : st.isHealthy = true) (hnd : (store.map Prod.fst).Nodup) :
    CacheService.invalidateCachePattern st store pattern none
      = ⟨Except.ok ⟨((store.map Prod.fst).filter (fun k => globMatch pattern k)).length,
                    true⟩,
         st, store.filter (fun p => !(globMatch pattern p.1)), true⟩ := by
  have hspec := scanLoopGo_spec pattern (store.map Prod.fst).length (store.map Prod.fst)
    le_rfl store 0 hnd (fun k hk => storeHas_of_mem_map hk)
  have hstore : store.filter
        (fun p => !((store.map Prod.fst).contains p.1 && globMatch pattern p.1))
      = store.filter (fun p => !(globMatch pattern p.1)) := by
    apply List.filter_congr
    intro p hp
    have hmem : p.1 ∈ store.map Prod.fst := List.mem_map.mpr ⟨p, hp, rfl⟩
    simp [hmem]
  unfold CacheService.invalidateCachePattern
  rw [if_pos hh]
  show (⟨Except.ok ⟨(CacheService.scanLoopGo pattern (store.map Prod.fst) store 0).2, true⟩,
         st, (CacheService.scanLoopGo pattern (store.map Prod.fst) store 0).1, true⟩
        : CSOut CacheService.InvSummary) = _
  rw [hspec, hstore]
  simp

/-- Witness for C4 at a concrete three-key store, two of whose keys match
the pattern. -/
theorem C4_pattern_invalidation_witness :
    CacheService.invalidateCachePattern ⟨true, true⟩
        [("user:1:tasks:a", "x"), ("user:1:tasks:b", "y"), ("user:2:tasks:a", "z")]
        "user:1:tasks:*" none
      = ⟨Except.ok
           ⟨(([("user:1:tasks:a", "x"), ("user:1:tasks:b", "y"),
               ("user:2:tasks:a", "z")].map Prod.fst).filter
              (fun k => globMatch "user:1:tasks:*" k)).length, true⟩,
         ⟨true, true⟩,
         [("user:1:tasks:a", "x"), ("user:1:tasks:b", "y"),
          ("user:2:tasks:a", "z")].filter
           (fun p => !(globMatch "user:1:tasks:*" p.1)), true⟩ :=
  C4_pattern_invalidation ⟨true, true⟩
    [("user:1:tasks:a", "x"), ("user:1:tasks:b", "y"), ("user:2:tasks:a", "z")]
    "user:1:tasks:*" rfl (by decide)
